import Mathlib

/-!
Verification of the image-generation / image-saving MCP server
(`src/server/imageServer.ts` together with `src/shared/imageGeneration.ts` and
`src/shared/tools/*.ts`) against its natural-language specification.

The TypeScript source is shallowly embedded: the filesystem, the HTTP client
(`node-fetch`) and the image provider (`openai.images.generate`) are passed in
as an explicit environment of pure functions, JavaScript exceptions are
modelled by an explicit outcome type, and the sequence of `Date.now()` samples
is a function from the sample counter to a millisecond value.
-/

set_option maxHeartbeats 1000000

namespace ImageServer

/-- A JavaScript value that can be thrown: either an `Error` instance carrying
a `message`, or any other thrown value (JavaScript allows throwing arbitrary
values), described by its `String(...)` conversion. -/
inductive JSValue where
  | error (message : String)
  | other (description : String)
deriving DecidableEq

/-- Embeds the idiom `error instanceof Error ? error.message : String(error)`
used by `saveGeneratedImages` when wrapping a directory-creation failure. -/
def jsErrString : JSValue → String
  | .error m => m
  | .other d => d

/-- Embeds the test `error instanceof Error` of the `catch` blocks. -/
def JSValue.isJsError : JSValue → Bool
  | .error _ => true
  | .other _ => false

/-- Outcome of running an `async` function to completion: it either returned a
value or threw. -/
inductive JsOutcome (α : Type) where
  | returned (v : α)
  | thrown (e : JSValue)
deriving DecidableEq

/-- Whether an outcome is an uncaught throw that escapes to the caller. -/
def JsOutcome.isThrown {α : Type} : JsOutcome α → Bool
  | .returned _ => false
  | .thrown _ => true

/-- Outcome of `await fetch(url)` followed by `await response.arrayBuffer()`:
node-fetch either rejects (network-level failure) or resolves with a response
carrying an HTTP status code and a body. node-fetch does not reject on HTTP
error statuses; the status is part of the resolved response. -/
inductive FetchOutcome where
  | reject (e : JSValue)
  | response (status : Nat) (body : List Nat)
deriving DecidableEq

/-- Whether the fetch resolved with a response. -/
def FetchOutcome.isResponse : FetchOutcome → Bool
  | .reject _ => false
  | .response _ _ => true

/-- The downloaded bytes of a resolved fetch (dummy value on a rejection). -/
def FetchOutcome.body : FetchOutcome → List Nat
  | .reject _ => []
  | .response _ b => b

/-- The sidecar metadata object built for each saved image
(`{ original_prompt, revised_prompt, url, timestamp, filename }`). -/
structure Metadata where
  original_prompt : String
  revised_prompt : Option String
  url : String
  timestamp : Nat
  filename : String
deriving DecidableEq

/-- Data written by one `fs.writeFile` call: either raw image bytes or a
JSON-serialised sidecar metadata record. -/
inductive FileData where
  | image (bytes : List Nat)
  | sidecar (m : Metadata)
deriving DecidableEq

/-- Observable effects of one invocation: directories created, file writes in
program order, URLs for which a download was attempted, and the number of
`Date.now()` samples taken so far. -/
structure FsState where
  dirs : List String
  files : List (String × FileData)
  fetches : List String
  clockCalls : Nat
deriving DecidableEq

/-- The state at the start of an invocation: nothing written yet. -/
def FsState.init : FsState := ⟨[], [], [], 0⟩

/-- Environment of the save operation: the working directory, the sequence of
`Date.now()` values (indexed by sample count), the behaviour of `fetch` per
URL, and the failure behaviour of `fs.mkdir` / `fs.writeFile` per path
(`none` means the call succeeds). -/
structure SaveEnv where
  cwd : String
  clock : Nat → Nat
  fetch : String → FetchOutcome
  mkdirFail : String → Option JSValue
  writeFail : String → Option JSValue

/-- Decimal digits of a natural number as characters, most significant first;
`fuel` bounds the recursion depth (any `fuel ≥ n` is enough). -/
def natReprCore (fuel : Nat) (n : Nat) : List Char :=
  match fuel with
  | 0 => []
  | fuel + 1 => if n = 0 then [] else natReprCore fuel (n / 10) ++ [Nat.digitChar (n % 10)]

/-- Decimal representation of a natural number, as produced by a JavaScript
template literal `${n}` for a non-negative integer. -/
def natRepr (n : Nat) : String :=
  if n = 0 then "0" else ⟨natReprCore n n⟩

/-- One character of `prompt.slice(0, 30).replace(/[^a-z0-9]/gi, '-')`: the
case-insensitive class `[^a-z0-9]` keeps ASCII letters and digits and
replaces everything else with a hyphen. -/
def sanitizeChar (c : Char) : Char :=
  if ('a' ≤ c ∧ c ≤ 'z') ∨ ('A' ≤ c ∧ c ≤ 'Z') ∨ ('0' ≤ c ∧ c ≤ '9') then c else '-'

/-- Embeds `prompt.slice(0, 30).replace(/[^a-z0-9]/gi, '-').toLowerCase()`:
first 30 characters, sanitised, then lowercased. -/
def safePromptOf (prompt : String) : String :=
  ⟨((prompt.data.take 30).map sanitizeChar).map Char.toLower⟩

/-- Embeds the template literal `` `${safePrompt}-${timestamp}-${i}.png` ``. -/
def filenameFrom (prompt : String) (timestamp i : Nat) : String :=
  safePromptOf prompt ++ "-" ++ natRepr timestamp ++ "-" ++ natRepr i ++ ".png"

/-- Embeds `path.join(dir, name)` for the directory and file names the server
builds (no trailing separators, non-empty components). -/
def pathJoin (dir name : String) : String :=
  dir ++ "/" ++ name

/-- Embeds the JavaScript `s || dflt` idiom on an optional string: both an
absent value and the empty string (the only falsy string) select the
default. -/
def jsOrElse (s : Option String) (dflt : String) : String :=
  match s with
  | some v => if v = "" then dflt else v
  | none => dflt

/-- The `for` loop of `saveGeneratedImages`: for each URL at index `i`,
look up `revisedPrompts[i]`, `await fetch(url)` (a rejection propagates),
sample `Date.now()`, derive the filename, write the image file and then the
sidecar metadata file (a write failure propagates), and push the image file
path onto `savedPaths`. -/
def saveLoop (env : SaveEnv) (prompt targetDir : String)
    (revisedPrompts : List (Option String)) :
    List String → Nat → FsState → List String → FsState × JsOutcome (List String)
  | [], _, st, savedPaths => (st, .returned savedPaths)
  | url :: rest, i, st, savedPaths =>
    let revisedPrompt := revisedPrompts.getD i none
    let st0 : FsState := { st with fetches := st.fetches ++ [url] }
    match env.fetch url with
    | .reject e => (st0, .thrown e)
    | .response _status body =>
      let timestamp := env.clock st0.clockCalls
      let st1 : FsState := { st0 with clockCalls := st0.clockCalls + 1 }
      let safePrompt := safePromptOf prompt
      let filename := safePrompt ++ "-" ++ natRepr timestamp ++ "-" ++ natRepr i ++ ".png"
      let filePath := pathJoin targetDir filename
      match env.writeFail filePath with
      | some e => (st1, .thrown e)
      | none =>
        let st2 : FsState := { st1 with files := st1.files ++ [(filePath, FileData.image body)] }
        let metadata : Metadata :=
          { original_prompt := prompt
            revised_prompt := revisedPrompt
            url := url
            timestamp := timestamp
            filename := filename }
        match env.writeFail (filePath ++ ".json") with
        | some e => (st2, .thrown e)
        | none =>
          let st3 : FsState :=
            { st2 with files := st2.files ++ [(filePath ++ ".json", FileData.sidecar metadata)] }
          saveLoop env prompt targetDir revisedPrompts rest (i + 1) st3 (savedPaths ++ [filePath])

/-- Embeds `saveGeneratedImages(urls, revisedPrompts, prompt, outputDir)`:
resolve the target directory (`outputDir || path.join(process.cwd(), 'images')`),
create it (a failure is wrapped in `new Error("Failed to create directory: ...")`
and thrown), then run the download/write loop. -/
def saveGeneratedImages (env : SaveEnv) (urls : List String)
    (revisedPrompts : List (Option String)) (prompt : String)
    (outputDir : Option String) (st : FsState) : FsState × JsOutcome (List String) :=
  let targetDir := jsOrElse outputDir (pathJoin env.cwd "images")
  match env.mkdirFail targetDir with
  | some e => (st, .thrown (.error ("Failed to create directory: " ++ jsErrString e)))
  | none =>
    saveLoop env prompt targetDir revisedPrompts urls 0
      { st with dirs := st.dirs ++ [targetDir] } []

/-- The parameters of the `save_generated_images` operation. -/
structure SaveImagesParams where
  urls : List String
  prompt : String
  revisedPrompts : Option (List String)
  outputDir : Option String

/-- The result envelope of `saveImages`: either the success payload
`JSON.stringify({ saved_paths, message })` or the `isError: true` envelope
carrying a plain text message. -/
inductive SaveResult where
  | ok (saved_paths : List String) (message : String)
  | error (text : String)
deriving DecidableEq

/-- Whether a save result is the error-marked envelope. -/
def SaveResult.isErr : SaveResult → Bool
  | .ok _ _ => false
  | .error _ => true

/-- Embeds the argument expression
`params.revisedPrompts || params.urls.map(() => undefined)`: a supplied array
is kept (an empty array is truthy in JavaScript), an absent one becomes a
list of `undefined` of the same length as `urls`. -/
def revisedOf (params : SaveImagesParams) : List (Option String) :=
  match params.revisedPrompts with
  | some rs => rs.map some
  | none => params.urls.map (fun _ => none)

/-- Embeds `saveImages(params)`: call `saveGeneratedImages`; on return build
the success envelope; in the `catch`, wrap an `Error` into the error envelope
`"Failed to save images: " + message` and re-throw any non-`Error` value. -/
def saveImages (env : SaveEnv) (params : SaveImagesParams) (st : FsState) :
    FsState × JsOutcome SaveResult :=
  match saveGeneratedImages env params.urls (revisedOf params) params.prompt params.outputDir st with
  | (st1, .returned savedPaths) =>
    (st1, .returned (.ok savedPaths
      ("Successfully saved " ++ natRepr savedPaths.length ++ " images to "
        ++ jsOrElse params.outputDir "images" ++ " directory")))
  | (st1, .thrown e) =>
    match e with
    | .error m => (st1, .returned (.error ("Failed to save images: " ++ m)))
    | .other d => (st1, .thrown (.other d))

/-- The three sizes accepted by the generation operation. -/
inductive ImageSize where
  | s1024x1024 | s1024x1792 | s1792x1024
deriving DecidableEq

/-- The two quality settings. -/
inductive Quality where
  | standard | hd
deriving DecidableEq

/-- The two style settings. -/
inductive Style where
  | vivid | natural
deriving DecidableEq

/-- The parameters of the `image_generation` operation. -/
structure ImageGenerationParams where
  prompt : String
  size : ImageSize
  quality : Quality
  style : Style
  n : Nat
deriving DecidableEq

/-- One entry of the provider response `response.data`: a URL and an optional
revised prompt. -/
structure ImageData where
  url : String
  revised_prompt : Option String
deriving DecidableEq

/-- The argument object of one `openai.images.generate({...})` call. -/
structure ProviderRequest where
  model : String
  prompt : String
  n : Nat
  size : ImageSize
  quality : Quality
  style : Style
deriving DecidableEq

/-- Environment of the generation operation: the credential read from
`process.env.OPENAI_API_KEY` and the behaviour of the provider call, which
either resolves with `response.data` or rejects with a thrown value. -/
structure GenEnv where
  apiKey : Option String
  provider : ProviderRequest → Except JSValue (List ImageData)

/-- Embeds `!apiKey`: the credential is missing when the environment variable
is absent or is the empty string (the only falsy string). -/
def credentialMissing (apiKey : Option String) : Bool :=
  match apiKey with
  | none => true
  | some s => s = ""

/-- The provider request built by both generation functions. -/
def providerRequestOf (params : ImageGenerationParams) : ProviderRequest :=
  { model := "dall-e-3"
    prompt := params.prompt
    n := params.n
    size := params.size
    quality := params.quality
    style := params.style }

/-- The result envelope of the registered `image_generation` handler: either
the success payload `JSON.stringify({ urls, revised_prompts })` or the
`isError: true` envelope carrying a plain text message. -/
inductive GenResult where
  | ok (urls : List String) (revised_prompts : List (Option String))
  | error (text : String)
deriving DecidableEq

/-- Embeds `generateImage(params)` from `src/server/imageServer.ts` (the
function registered for the `image_generation` operation). The first
component records the provider requests actually issued. A missing credential
throws `new Error("OpenAI API key is not available")` before the `try` block;
a provider rejection with an `Error` is wrapped into the error envelope
`"Image generation failed: " + message`; a non-`Error` rejection is
re-thrown. -/
def generateImage (env : GenEnv) (params : ImageGenerationParams) :
    List ProviderRequest × JsOutcome GenResult :=
  if credentialMissing env.apiKey then
    ([], .thrown (.error "OpenAI API key is not available"))
  else
    let req := providerRequestOf params
    match env.provider req with
    | .ok data =>
      ([req], .returned (.ok (data.map ImageData.url) (data.map ImageData.revised_prompt)))
    | .error e =>
      match e with
      | .error m => ([req], .returned (.error ("Image generation failed: " ++ m)))
      | .other d => ([req], .thrown (.other d))

/-- One content block of the shared module's success result:
`{ type: "image", data: image.url, mimeType: "image/png" }`. -/
structure ImageBlock where
  data : String
  mimeType : String
deriving DecidableEq

/-- The result envelope of the shared module's `generateImage`. -/
inductive GenSharedResult where
  | okImages (content : List ImageBlock)
  | error (text : String)
deriving DecidableEq

/-- Embeds `generateImage(params)` from `src/shared/imageGeneration.ts` (the
`handler` field of the `image_generation` tool object): same credential guard
and catch structure as the server-local function, but the success envelope is
a list of image content blocks. -/
def generateImageShared (env : GenEnv) (params : ImageGenerationParams) :
    List ProviderRequest × JsOutcome GenSharedResult :=
  if credentialMissing env.apiKey then
    ([], .thrown (.error "OpenAI API key is not available"))
  else
    let req := providerRequestOf params
    match env.provider req with
    | .ok data =>
      ([req], .returned (.okImages (data.map fun image =>
        { data := image.url, mimeType := "image/png" })))
    | .error e =>
      match e with
      | .error m => ([req], .returned (.error ("Image generation failed: " ++ m)))
      | .other d => ([req], .thrown (.other d))

/-! ### Derived descriptions of a completed save run

The following definitions are not part of the embedding itself; they state, as
explicit recursive functions, the paths and writes a run of the loop produces
when every download and write succeeds. The theorems below prove the loop
equal to them. -/

/-- The image file paths produced for the URLs, starting at index `i` (with
the `Date.now()` sample counter equal to the index). -/
def pathsFrom (env : SaveEnv) (prompt targetDir : String) :
    Nat → List String → List String
  | _, [] => []
  | i, _url :: rest =>
    pathJoin targetDir (filenameFrom prompt (env.clock i) i) :: pathsFrom env prompt targetDir (i + 1) rest

/-- The sidecar metadata record for index `i` and its URL. -/
def metadataAt (env : SaveEnv) (prompt : String) (revisedPrompts : List (Option String))
    (i : Nat) (url : String) : Metadata :=
  { original_prompt := prompt
    revised_prompt := revisedPrompts.getD i none
    url := url
    timestamp := env.clock i
    filename := filenameFrom prompt (env.clock i) i }

/-- The file writes (image then sidecar, per item, in order) produced for the
URLs, starting at index `i`. -/
def writesFrom (env : SaveEnv) (prompt targetDir : String)
    (revisedPrompts : List (Option String)) :
    Nat → List String → List (String × FileData)
  | _, [] => []
  | i, url :: rest =>
    let filePath := pathJoin targetDir (filenameFrom prompt (env.clock i) i)
    (filePath, FileData.image (env.fetch url).body)
      :: (filePath ++ ".json", FileData.sidecar (metadataAt env prompt revisedPrompts i url))
      :: writesFrom env prompt targetDir revisedPrompts (i + 1) rest

/-- Number of image writes in a write list. -/
def countImages (files : List (String × FileData)) : Nat :=
  (files.filter fun f => match f.2 with | .image _ => true | .sidecar _ => false).length

/-- Number of sidecar writes in a write list. -/
def countSidecars (files : List (String × FileData)) : Nat :=
  (files.filter fun f => match f.2 with | .image _ => false | .sidecar _ => true).length

/-- The directory the save operation resolves and creates:
`outputDir || path.join(process.cwd(), 'images')`. -/
def targetDirOf (env : SaveEnv) (outputDir : Option String) : String :=
  jsOrElse outputDir (pathJoin env.cwd "images")

/-- Whether the caller observes a failure of the save operation as an
error-marked envelope (a raw thrown value is counted as not being an
error envelope). -/
def saveOutcomeIsErrorEnvelope : JsOutcome SaveResult → Bool
  | .returned r => r.isErr
  | .thrown _ => false

/-- The timestamps recorded in the sidecar records of a write list, in write
order. -/
def sidecarTimestamps (files : List (String × FileData)) : List Nat :=
  files.filterMap fun f => match f.2 with | .sidecar m => some m.timestamp | .image _ => none

/-- Each URL contributes exactly one entry to the path list. -/
theorem pathsFrom_length (env : SaveEnv) (prompt targetDir : String) :
    ∀ (i : Nat) (urls : List String),
      (pathsFrom env prompt targetDir i urls).length = urls.length := by
  intro i urls
  induction urls generalizing i with
  | nil => rfl
  | cons u rest ih => simp [pathsFrom, ih]

/-- Each URL contributes exactly one image write. -/
theorem countImages_writesFrom (env : SaveEnv) (prompt targetDir : String)
    (revised : List (Option String)) :
    ∀ (i : Nat) (urls : List String),
      countImages (writesFrom env prompt targetDir revised i urls) = urls.length := by
  intro i urls
  induction urls generalizing i with
  | nil => rfl
  | cons u rest ih => simp [writesFrom, countImages, List.filter] at ih ⊢; exact ih _

/-- Each URL contributes exactly one sidecar write. -/
theorem countSidecars_writesFrom (env : SaveEnv) (prompt targetDir : String)
    (revised : List (Option String)) :
    ∀ (i : Nat) (urls : List String),
      countSidecars (writesFrom env prompt targetDir revised i urls) = urls.length := by
  intro i urls
  induction urls generalizing i with
  | nil => rfl
  | cons u rest ih => simp [writesFrom, countSidecars, List.filter] at ih ⊢; exact ih _

/-- When every download resolves and every write succeeds, the loop returns
the accumulated image paths and performs exactly the writes described by
`writesFrom`, sampling the clock once per item. -/
theorem saveLoop_success (env : SaveEnv) (prompt targetDir : String)
    (revised : List (Option String)) (urls : List String) :
    ∀ (i : Nat) (st : FsState) (acc : List String),
      st.clockCalls = i →
      (∀ u ∈ urls, (env.fetch u).isResponse = true) →
      (∀ p, env.writeFail p = none) →
      saveLoop env prompt targetDir revised urls i st acc =
        ({ st with files := st.files ++ writesFrom env prompt targetDir revised i urls,
                   fetches := st.fetches ++ urls,
                   clockCalls := i + urls.length },
         .returned (acc ++ pathsFrom env prompt targetDir i urls)) := by
  induction urls with
  | nil =>
    intro i st acc hclock _ _
    simp [saveLoop, writesFrom, pathsFrom, ← hclock]
  | cons url rest ih =>
    intro i st acc hclock hfetch hwrite
    have hurl : (env.fetch url).isResponse = true := hfetch url (by simp)
    cases henv : env.fetch url with
    | reject e => rw [henv] at hurl; simp [FetchOutcome.isResponse] at hurl
    | response status body =>
      have hrest : ∀ u ∈ rest, (env.fetch u).isResponse = true :=
        fun u hu => hfetch u (by simp [hu])
      have step := ih (i + 1)
        { dirs := st.dirs
          files := (st.files
              ++ [(pathJoin targetDir (filenameFrom prompt (env.clock i) i),
                    FileData.image body)])
            ++ [(pathJoin targetDir (filenameFrom prompt (env.clock i) i) ++ ".json",
                  FileData.sidecar (metadataAt env prompt revised i url))]
          fetches := st.fetches ++ [url]
          clockCalls := i + 1 }
        (acc ++ [pathJoin targetDir (filenameFrom prompt (env.clock i) i)]) rfl hrest hwrite
      simp only [filenameFrom, metadataAt] at step
      simp only [saveLoop, henv, hwrite, hclock]
      refine step.trans ?_
      simp [writesFrom, pathsFrom, metadataAt, henv, FetchOutcome.body, filenameFrom,
        List.append_assoc, Nat.add_comm, Nat.add_assoc, Nat.add_left_comm]

/-- When the downloads for a list of leading URLs resolve, all writes succeed,
and the download for the next URL rejects, the loop stops there: it throws the
rejection value and has performed exactly the writes for the leading URLs. -/
theorem saveLoop_stops_at_reject (env : SaveEnv) (prompt targetDir : String)
    (revised : List (Option String)) (pre : List String) (u : String)
    (post : List String) (e : JSValue) :
    ∀ (i : Nat) (st : FsState) (acc : List String),
      st.clockCalls = i →
      (∀ v ∈ pre, (env.fetch v).isResponse = true) →
      (∀ p, env.writeFail p = none) →
      env.fetch u = .reject e →
      saveLoop env prompt targetDir revised (pre ++ u :: post) i st acc =
        ({ st with files := st.files ++ writesFrom env prompt targetDir revised i pre,
                   fetches := st.fetches ++ (pre ++ [u]),
                   clockCalls := i + pre.length },
         .thrown e) := by
  induction pre with
  | nil =>
    intro i st acc hclock _ _ hrej
    simp [saveLoop, hrej, writesFrom, ← hclock]
  | cons v rest ih =>
    intro i st acc hclock hfetch hwrite hrej
    have hv : (env.fetch v).isResponse = true := hfetch v (by simp)
    cases henv : env.fetch v with
    | reject e2 => rw [henv] at hv; simp [FetchOutcome.isResponse] at hv
    | response status body =>
      have hrest : ∀ w ∈ rest, (env.fetch w).isResponse = true :=
        fun w hw => hfetch w (by simp [hw])
      have step := ih (i + 1)
        { dirs := st.dirs
          files := (st.files
              ++ [(pathJoin targetDir (filenameFrom prompt (env.clock i) i),
                    FileData.image body)])
            ++ [(pathJoin targetDir (filenameFrom prompt (env.clock i) i) ++ ".json",
                  FileData.sidecar (metadataAt env prompt revised i v))]
          fetches := st.fetches ++ [v]
          clockCalls := i + 1 }
        (acc ++ [pathJoin targetDir (filenameFrom prompt (env.clock i) i)]) rfl hrest hwrite hrej
      simp only [filenameFrom, metadataAt] at step
      simp only [List.cons_append, saveLoop, henv, hwrite, hclock]
      refine step.trans ?_
      simp [writesFrom, metadataAt, henv, FetchOutcome.body, filenameFrom,
        List.append_assoc, Nat.add_comm, Nat.add_assoc, Nat.add_left_comm]

/-- Any value thrown out of the loop is a fetch rejection value of one of the
URLs or a write-failure value of the environment. -/
theorem saveLoop_thrown_source (env : SaveEnv) (prompt targetDir : String)
    (revised : List (Option String)) (urls : List String) :
    ∀ (i : Nat) (st : FsState) (acc : List String) (e : JSValue),
      (saveLoop env prompt targetDir revised urls i st acc).2 = .thrown e →
      (∃ u ∈ urls, env.fetch u = .reject e) ∨ (∃ p, env.writeFail p = some e) := by
  induction urls with
  | nil => intro i st acc e h; simp [saveLoop] at h
  | cons url rest ih =>
    intro i st acc e h
    cases henv : env.fetch url with
    | reject e2 =>
      simp [saveLoop, henv] at h
      exact Or.inl ⟨url, by simp, by rw [henv, h]⟩
    | response status body =>
      simp only [saveLoop, henv] at h
      cases hw1 : env.writeFail
          (pathJoin targetDir
            (safePromptOf prompt ++ "-" ++ natRepr (env.clock st.clockCalls) ++ "-"
              ++ natRepr i ++ ".png")) with
      | some e2 =>
        rw [hw1] at h
        simp at h
        exact Or.inr ⟨_, by rw [hw1, h]⟩
      | none =>
        rw [hw1] at h
        simp only at h
        cases hw2 : env.writeFail
            (pathJoin targetDir
              (safePromptOf prompt ++ "-" ++ natRepr (env.clock st.clockCalls) ++ "-"
                ++ natRepr i ++ ".png") ++ ".json") with
        | some e2 =>
          rw [hw2] at h
          simp at h
          exact Or.inr ⟨_, by rw [hw2, h]⟩
        | none =>
          rw [hw2] at h
          simp only at h
          rcases ih _ _ _ _ h with ⟨u, hu, hrej⟩ | hwf
          · exact Or.inl ⟨u, by simp [hu], hrej⟩
          · exact Or.inr hwf

/-! ### Decimal representation: correctness, injectivity, character set -/

/-- With enough fuel, `natReprCore` computes the base-10 digit characters,
most significant first. -/
theorem natReprCore_eq_digits (fuel : Nat) :
    ∀ n : Nat, n ≤ fuel →
      natReprCore fuel n = ((Nat.digits 10 n).map Nat.digitChar).reverse := by
  induction fuel with
  | zero =>
    intro n hn
    have : n = 0 := Nat.le_zero.mp hn
    subst this
    simp [natReprCore]
  | succ fuel ih =>
    intro n hn
    by_cases h0 : n = 0
    · subst h0; simp [natReprCore]
    · have hdiv : n / 10 < n := Nat.div_lt_self (Nat.pos_of_ne_zero h0) (by norm_num)
      rw [natReprCore]
      simp only [h0, if_false]
      rw [ih (n / 10) (by omega),
        Nat.digits_def' (by norm_num : (1 : Nat) < 10) (Nat.pos_of_ne_zero h0)]
      simp

/-- Digit characters are never a hyphen. -/
theorem digitChar_ne_hyphen : ∀ d, d < 10 → Nat.digitChar d ≠ '-' := by decide

/-- Digit characters determine the digit. -/
theorem digitChar_inj : ∀ a, a < 10 → ∀ b, b < 10 →
    Nat.digitChar a = Nat.digitChar b → a = b := by decide

/-- No hyphen ever appears in `natReprCore` output. -/
theorem hyphen_not_mem_natReprCore (fuel : Nat) :
    ∀ n : Nat, '-' ∉ natReprCore fuel n := by
  induction fuel with
  | zero => intro n; simp [natReprCore]
  | succ fuel ih =>
    intro n
    rw [natReprCore]
    by_cases h0 : n = 0
    · simp [h0]
    · simp only [h0, if_false, List.mem_append, List.mem_singleton]
      rintro (h | h)
      · exact ih _ h
      · exact digitChar_ne_hyphen (n % 10) (Nat.mod_lt _ (by norm_num)) h.symm

/-- No hyphen ever appears in the decimal representation. -/
theorem hyphen_not_mem_natRepr (n : Nat) : '-' ∉ (natRepr n).data := by
  unfold natRepr
  by_cases h0 : n = 0
  · subst h0; decide
  · simp only [h0, if_false]
    exact hyphen_not_mem_natReprCore n n

/-- Mapping digits below the base through `Nat.digitChar` is injective. -/
theorem map_digitChar_inj :
    ∀ (l1 l2 : List Nat), (∀ a ∈ l1, a < 10) → (∀ a ∈ l2, a < 10) →
      l1.map Nat.digitChar = l2.map Nat.digitChar → l1 = l2 := by
  intro l1
  induction l1 with
  | nil =>
    intro l2 _ _ h
    cases l2 with
    | nil => rfl
    | cons b bs => simp at h
  | cons a as ih =>
    intro l2 h1 h2 h
    cases l2 with
    | nil => simp at h
    | cons b bs =>
      simp only [List.map_cons, List.cons.injEq] at h
      have hab : a = b :=
        digitChar_inj a (h1 a (by simp)) b (h2 b (by simp)) h.1
      rw [hab, ih bs (fun x hx => h1 x (by simp [hx])) (fun x hx => h2 x (by simp [hx])) h.2]

/-- The decimal representation is injective (on the character list). -/
theorem natRepr_data_inj (m n : Nat) (h : (natRepr m).data = (natRepr n).data) : m = n := by
  have hmain : ∀ k : Nat, k ≠ 0 →
      (natRepr k).data = ((Nat.digits 10 k).map Nat.digitChar).reverse := by
    intro k hk
    unfold natRepr
    simp only [hk, if_false]
    exact natReprCore_eq_digits k k le_rfl
  have hdig : ∀ k : Nat, k ≠ 0 → (natRepr k).data = ((Nat.digits 10 k).map Nat.digitChar).reverse :=
    hmain
  have digits_eq_imp : ∀ a b : Nat, Nat.digits 10 a = Nat.digits 10 b → a = b := by
    intro a b hab
    have := congrArg (Nat.ofDigits 10) hab
    rwa [Nat.ofDigits_digits, Nat.ofDigits_digits] at this
  have bound : ∀ k : Nat, ∀ d ∈ Nat.digits 10 k, d < 10 := by
    intro k d hd
    exact Nat.digits_lt_base (by norm_num) hd
  by_cases hm : m = 0 <;> by_cases hn : n = 0
  · rw [hm, hn]
  · exfalso
    rw [hm, hdig n hn] at h
    have h0 : (Nat.digits 10 n).map Nat.digitChar = ['0'] := by
      have := congrArg List.reverse h
      simpa [natRepr] using this.symm
    have hdg : Nat.digits 10 n = [0] :=
      map_digitChar_inj _ [0] (bound n) (by simp) (by simpa using h0)
    have h1 := Nat.ofDigits_digits 10 n
    rw [hdg] at h1
    simp [Nat.ofDigits_cons, Nat.ofDigits_nil] at h1
    exact hn h1.symm
  · exfalso
    rw [hn, hdig m hm] at h
    have h0 : (Nat.digits 10 m).map Nat.digitChar = ['0'] := by
      have := congrArg List.reverse h
      simpa [natRepr] using this
    have hdg : Nat.digits 10 m = [0] :=
      map_digitChar_inj _ [0] (bound m) (by simp) (by simpa using h0)
    have h1 := Nat.ofDigits_digits 10 m
    rw [hdg] at h1
    simp [Nat.ofDigits_cons, Nat.ofDigits_nil] at h1
    exact hm h1.symm
  · rw [hdig m hm, hdig n hn] at h
    have := List.reverse_injective h
    exact digits_eq_imp m n (map_digitChar_inj _ _ (bound m) (bound n) this)

/-! ### Filename uniqueness within a call -/

/-- The character list of a string concatenation. -/
theorem data_append (s t : String) : (s ++ t).data = s.data ++ t.data := by
  cases s; cases t; rfl

/-- Splitting a list at a separator that occurs in neither left part is
unambiguous. -/
theorem append_cons_cancel {α : Type} {c : α} :
    ∀ {u u2 v v2 : List α}, u ++ c :: v = u2 ++ c :: v2 → c ∉ u → c ∉ u2 →
      u = u2 ∧ v = v2 := by
  intro u
  induction u with
  | nil =>
    intro u2 v v2 h hcu hcu2
    cases u2 with
    | nil => simpa using h
    | cons a u3 =>
      simp only [List.nil_append, List.cons_append, List.cons.injEq] at h
      exact absurd (by simp [h.1]) hcu2
  | cons a u3 ih =>
    intro u2 v v2 h hcu hcu2
    cases u2 with
    | nil =>
      simp only [List.cons_append, List.nil_append, List.cons.injEq] at h
      exact absurd (by simp [h.1]) hcu
    | cons b u4 =>
      simp only [List.cons_append, List.cons.injEq] at h
      have hrec := ih h.2 (fun hc => hcu (by simp [hc])) (fun hc => hcu2 (by simp [hc]))
      exact ⟨by rw [h.1, hrec.1], hrec.2⟩

/-- The index embedded in a derived filename determines it: two derived
filenames can only coincide when their zero-based indices coincide, whatever
the prompts and timestamps. -/
theorem filenameFrom_index_inj {p q : String} {t s i j : Nat}
    (h : filenameFrom p t i = filenameFrom q s j) : i = j := by
  have hd := congrArg (fun z : String => z.data.reverse) h
  simp only [filenameFrom, data_append, List.reverse_append, List.append_assoc] at hd
  simp only [List.reverse_cons, List.reverse_nil, List.nil_append, List.append_assoc,
    List.singleton_append, List.cons_append] at hd
  -- hd : 'g' :: 'n' :: 'p' :: '.' :: (rev (natRepr i) ++ '-' :: ...) = same shape for j
  simp only [List.cons.injEq, eq_self_iff_true, true_and] at hd
  have hsplit := append_cons_cancel hd
    (by rw [List.mem_reverse]; exact hyphen_not_mem_natRepr i)
    (by rw [List.mem_reverse]; exact hyphen_not_mem_natRepr j)
  exact natRepr_data_inj i j (List.reverse_injective hsplit.1)

/-- Joining distinct names under the same directory yields distinct paths. -/
theorem pathJoin_right_inj {dir a b : String} (h : pathJoin dir a = pathJoin dir b) :
    a = b := by
  have hd := congrArg String.data h
  simp only [pathJoin, data_append, List.append_assoc] at hd
  have := List.append_cancel_left hd
  have h2 := List.append_cancel_left this
  exact congrArg String.mk h2

/-- Every path produced from index `i` onwards carries an index at least `i`. -/
theorem mem_pathsFrom (env : SaveEnv) (prompt targetDir : String) :
    ∀ (urls : List String) (i : Nat) (x : String),
      x ∈ pathsFrom env prompt targetDir i urls →
      ∃ k, i ≤ k ∧ x = pathJoin targetDir (filenameFrom prompt (env.clock k) k) := by
  intro urls
  induction urls with
  | nil => intro i x hx; simp [pathsFrom] at hx
  | cons u rest ih =>
    intro i x hx
    rcases (List.mem_cons).mp hx with hx | hx
    · exact ⟨i, le_rfl, hx⟩
    · rcases ih (i + 1) x hx with ⟨k, hk, he⟩
      exact ⟨k, by omega, he⟩

/-- The image paths produced within one call are pairwise distinct: each
embeds its item's index. -/
theorem pathsFrom_nodup (env : SaveEnv) (prompt targetDir : String) :
    ∀ (urls : List String) (i : Nat), (pathsFrom env prompt targetDir i urls).Nodup := by
  intro urls
  induction urls with
  | nil => intro i; simp [pathsFrom]
  | cons u rest ih =>
    intro i
    rw [pathsFrom, List.nodup_cons]
    refine ⟨fun hmem => ?_, ih (i + 1)⟩
    rcases mem_pathsFrom env prompt targetDir rest (i + 1) _ hmem with ⟨k, hk, he⟩
    have : i = k := filenameFrom_index_inj (pathJoin_right_inj he)
    omega

/-! ### Characterisation of complete runs of the save operation -/

/-- A fully successful save invocation: the directory is created, every URL is
fetched once, the image and sidecar writes happen in order, and the success
envelope carries the image paths and the count message. -/
theorem saveImages_success_run (env : SaveEnv) (params : SaveImagesParams)
    (hfetch : ∀ u ∈ params.urls, (env.fetch u).isResponse = true)
    (hmkdir : env.mkdirFail (targetDirOf env params.outputDir) = none)
    (hwrite : ∀ p, env.writeFail p = none) :
    saveImages env params FsState.init =
      ({ dirs := [targetDirOf env params.outputDir]
         files := writesFrom env params.prompt (targetDirOf env params.outputDir)
           (revisedOf params) 0 params.urls
         fetches := params.urls
         clockCalls := params.urls.length },
       .returned (.ok
         (pathsFrom env params.prompt (targetDirOf env params.outputDir) 0 params.urls)
         ("Successfully saved " ++ natRepr params.urls.length ++ " images to "
           ++ jsOrElse params.outputDir "images" ++ " directory"))) := by
  have hloop := saveLoop_success env params.prompt
    (jsOrElse params.outputDir (pathJoin env.cwd "images"))
    (revisedOf params) params.urls 0
    ⟨[jsOrElse params.outputDir (pathJoin env.cwd "images")], [], [], 0⟩ [] rfl hfetch hwrite
  simp only [targetDirOf] at hmkdir ⊢
  unfold saveImages saveGeneratedImages
  simp only [hmkdir, FsState.init, List.nil_append]
  rw [hloop]
  simp only [List.nil_append, Nat.zero_add, pathsFrom_length]

/-- A save invocation in which the download at one position rejects: the
whole call returns the error envelope, the writes are exactly those of the
earlier positions, and the failing URL was the last download attempted. -/
theorem saveImages_reject_run (env : SaveEnv) (params : SaveImagesParams)
    (pre post : List String) (u : String) (m : String)
    (hsplit : params.urls = pre ++ u :: post)
    (hpre : ∀ v ∈ pre, (env.fetch v).isResponse = true)
    (hrej : env.fetch u = .reject (.error m))
    (hmkdir : env.mkdirFail (targetDirOf env params.outputDir) = none)
    (hwrite : ∀ p, env.writeFail p = none) :
    saveImages env params FsState.init =
      ({ dirs := [targetDirOf env params.outputDir]
         files := writesFrom env params.prompt (targetDirOf env params.outputDir)
           (revisedOf params) 0 pre
         fetches := pre ++ [u]
         clockCalls := pre.length },
       .returned (.error ("Failed to save images: " ++ m))) := by
  have hloop := saveLoop_stops_at_reject env params.prompt
    (jsOrElse params.outputDir (pathJoin env.cwd "images"))
    (revisedOf params) pre u post (.error m) 0
    ⟨[jsOrElse params.outputDir (pathJoin env.cwd "images")], [], [], 0⟩ [] rfl hpre hwrite hrej
  simp only [targetDirOf] at hmkdir ⊢
  unfold saveImages saveGeneratedImages
  simp only [hmkdir, FsState.init, List.nil_append, hsplit]
  rw [hloop]
  simp

/-- Indexing into a mapped list below its length. -/
theorem getD_map_of_lt {α β : Type} (f : α → β) (d : α) (d2 : β) :
    ∀ (l : List α) (k : Nat), k < l.length → (l.map f).getD k d2 = f (l.getD k d) := by
  intro l
  induction l with
  | nil => intro k hk; simp at hk
  | cons a as ih =>
    intro k hk
    cases k with
    | zero => simp
    | succ k =>
      simp only [List.map_cons, List.getD_cons_succ]
      exact ih k (by simpa using hk)

/-- The `k`-th produced path is the image path derived for index `i + k`. -/
theorem pathsFrom_getD (env : SaveEnv) (prompt targetDir : String) :
    ∀ (urls : List String) (i k : Nat), k < urls.length →
      (pathsFrom env prompt targetDir i urls).getD k "" =
        pathJoin targetDir (filenameFrom prompt (env.clock (i + k)) (i + k)) := by
  intro urls
  induction urls with
  | nil => intro i k hk; simp at hk
  | cons u rest ih =>
    intro i k hk
    cases k with
    | zero => simp [pathsFrom]
    | succ k =>
      rw [pathsFrom, List.getD_cons_succ, ih (i + 1) k (by simpa using hk)]
      have harith : i + 1 + k = i + (k + 1) := by omega
      rw [harith]

/-- The image write for position `k` is among the writes of a run starting at
index `i`. -/
theorem image_write_mem_writesFrom (env : SaveEnv) (prompt targetDir : String)
    (revised : List (Option String)) :
    ∀ (urls : List String) (i k : Nat), k < urls.length →
      (pathJoin targetDir (filenameFrom prompt (env.clock (i + k)) (i + k)),
        FileData.image (env.fetch (urls.getD k "")).body)
        ∈ writesFrom env prompt targetDir revised i urls := by
  intro urls
  induction urls with
  | nil => intro i k hk; simp at hk
  | cons u rest ih =>
    intro i k hk
    cases k with
    | zero => simp [writesFrom]
    | succ k =>
      rw [writesFrom]
      refine List.mem_cons.mpr (Or.inr (List.mem_cons.mpr (Or.inr ?_)))
      have hmem := ih (i + 1) k (by simpa using hk)
      have harith : i + 1 + k = i + (k + 1) := by omega
      rw [harith] at hmem
      simpa using hmem

/-- The sidecar write for position `k` is among the writes of a run starting
at index `i`. -/
theorem sidecar_write_mem_writesFrom (env : SaveEnv) (prompt targetDir : String)
    (revised : List (Option String)) :
    ∀ (urls : List String) (i k : Nat), k < urls.length →
      (pathJoin targetDir (filenameFrom prompt (env.clock (i + k)) (i + k)) ++ ".json",
        FileData.sidecar (metadataAt env prompt revised (i + k) (urls.getD k "")))
        ∈ writesFrom env prompt targetDir revised i urls := by
  intro urls
  induction urls with
  | nil => intro i k hk; simp at hk
  | cons u rest ih =>
    intro i k hk
    cases k with
    | zero => simp [writesFrom]
    | succ k =>
      rw [writesFrom]
      refine List.mem_cons.mpr (Or.inr (List.mem_cons.mpr (Or.inr ?_)))
      have hmem := ih (i + 1) k (by simpa using hk)
      have harith : i + 1 + k = i + (k + 1) := by omega
      rw [harith] at hmem
      simpa using hmem

/-- Indexing an all-`undefined` revised-prompt list gives `undefined`. -/
theorem getD_map_const_none {α : Type} :
    ∀ (l : List α) (k : Nat),
      (l.map (fun _ => (none : Option String))).getD k none = none := by
  intro l
  induction l with
  | nil => intro k; simp
  | cons a as ih =>
    intro k
    cases k with
    | zero => simp
    | succ k =>
      simp only [List.map_cons, List.getD_cons_succ]
      exact ih k

/-- Indexing a supplied revised-prompt array: present below the length,
`undefined` beyond it. -/
theorem map_some_getD (rs : List String) :
    ∀ k : Nat, (rs.map some).getD k none =
      if k < rs.length then some (rs.getD k "") else none := by
  induction rs with
  | nil => intro k; simp
  | cons r rest ih =>
    intro k
    cases k with
    | zero => simp
    | succ k =>
      simp only [List.map_cons, List.getD_cons_succ, List.length_cons, List.getD_cons_succ]
      rw [ih k]
      simp [Nat.succ_lt_succ_iff]

/-- The `revised_prompt` looked up for position `k`: the supplied entry when
the array was supplied and has one, `undefined` otherwise. -/
theorem revisedOf_getD (params : SaveImagesParams) (k : Nat) :
    (revisedOf params).getD k none =
      (match params.revisedPrompts with
       | some rs => if k < rs.length then some (rs.getD k "") else none
       | none => none) := by
  unfold revisedOf
  cases params.revisedPrompts with
  | none => simp [getD_map_const_none]
  | some rs => exact map_some_getD rs k

/-! ### Claim C5: filename derivation -/

/-- The character replacement of the claim, stated with the standard ASCII
letter/digit predicates: characters outside a-z, A-Z, 0-9 become a hyphen. -/
theorem sanitizeChar_spec (c : Char) :
    sanitizeChar c = if c.isAlpha ∨ c.isDigit then c else '-' := by
  have hiff : (('a' ≤ c ∧ c ≤ 'z') ∨ ('A' ≤ c ∧ c ≤ 'Z') ∨ ('0' ≤ c ∧ c ≤ '9')) ↔
      (c.isAlpha ∨ c.isDigit) := by
    simp only [Char.isAlpha, Char.isUpper, Char.isLower, Char.isDigit,
      Bool.or_eq_true, Bool.and_eq_true, decide_eq_true_eq, ge_iff_le]
    have h1 : ('a' ≤ c) = ((97 : UInt32) ≤ c.val) := rfl
    have h2 : (c ≤ 'z') = (c.val ≤ (122 : UInt32)) := rfl
    have h3 : ('A' ≤ c) = ((65 : UInt32) ≤ c.val) := rfl
    have h4 : (c ≤ 'Z') = (c.val ≤ (90 : UInt32)) := rfl
    have h5 : ('0' ≤ c) = ((48 : UInt32) ≤ c.val) := rfl
    have h6 : (c ≤ '9') = (c.val ≤ (57 : UInt32)) := rfl
    rw [h1, h2, h3, h4, h5, h6]
    tauto
  unfold sanitizeChar
  by_cases h : (c.isAlpha ∨ c.isDigit)
  · rw [if_pos (hiff.mpr h), if_pos h]
  · rw [if_neg fun hc => h (hiff.mp hc), if_neg h]

/-- Filename derivation as worded by the spec: the first 30 characters of the
prompt with every character outside a-z, A-Z, 0-9 replaced by a hyphen, then
lowercased, followed by a hyphen, the timestamp, a hyphen, the index, and the
fixed ".png" extension. -/
def specFilename (p : String) (t i : Nat) : String :=
  (⟨((p.data.take 30).map fun c => if c.isAlpha ∨ c.isDigit then c else '-').map
      Char.toLower⟩ : String)
    ++ "-" ++ natRepr t ++ "-" ++ natRepr i ++ ".png"

/-- C5: for every prompt `p`, millisecond timestamp `t` and zero-based index
`i`, the filename the save loop derives equals the spec-worded derivation —
first 30 characters of `p`, characters outside a-z/A-Z/0-9 replaced by
hyphens, lowercased, then `-t-i.png`; being a plain function of `(p, t, i)`,
the derivation is deterministic. -/
theorem filename_matches_spec_derivation (p : String) (t i : Nat) :
    filenameFrom p t i = specFilename p t i := by
  have hfun : sanitizeChar = fun c => if c.isAlpha ∨ c.isDigit then c else '-' :=
    funext sanitizeChar_spec
  unfold filenameFrom specFilename safePromptOf
  rw [hfun]

/-! ### Claim C4: missing credential -/

/-- C4: when no provider credential is available, both generation entry points
throw the configuration error before issuing any provider request (the
provider request list is empty), and the failure is a thrown error rather
than an error envelope. -/
theorem missing_credential_fails_before_provider_call (env : GenEnv)
    (params : ImageGenerationParams) (h : credentialMissing env.apiKey = true) :
    (generateImage env params).1 = []
    ∧ (generateImage env params).2 = .thrown (.error "OpenAI API key is not available")
    ∧ (generateImage env params).2.isThrown = true
    ∧ (generateImageShared env params).1 = []
    ∧ (generateImageShared env params).2
        = .thrown (.error "OpenAI API key is not available") := by
  unfold generateImage generateImageShared
  simp [h, JsOutcome.isThrown]

/-- A generation environment with no credential configured. -/
def genEnvC4 : GenEnv := { apiKey := none, provider := fun _ => .ok [] }

/-- A well-formed generation request. -/
def genParamsC4 : ImageGenerationParams :=
  { prompt := "a red fox", size := .s1024x1024, quality := .standard, style := .vivid, n := 1 }

/-- Witness for C4 at a concrete missing-credential environment. -/
theorem missing_credential_fails_before_provider_call_witness :
    credentialMissing genEnvC4.apiKey = true
    ∧ ((generateImage genEnvC4 genParamsC4).1 = []
      ∧ (generateImage genEnvC4 genParamsC4).2
          = .thrown (.error "OpenAI API key is not available")
      ∧ (generateImage genEnvC4 genParamsC4).2.isThrown = true
      ∧ (generateImageShared genEnvC4 genParamsC4).1 = []
      ∧ (generateImageShared genEnvC4 genParamsC4).2
          = .thrown (.error "OpenAI API key is not available")) :=
  ⟨rfl, missing_credential_fails_before_provider_call genEnvC4 genParamsC4 rfl⟩

/-! ### Claim C7: successful generation -/

/-- C7: with a working credential and a successful provider call, the success
envelope carries one URL per provider-returned image (no filtering), in
provider order, with the revised-prompt list aligned index by index, an entry
being `none` exactly when the provider supplied no revised prompt there. -/
theorem generation_success_aligned (env : GenEnv) (params : ImageGenerationParams)
    (data : List ImageData)
    (hkey : credentialMissing env.apiKey = false)
    (hprov : env.provider (providerRequestOf params) = .ok data) :
    (generateImage env params).2 =
      .returned (.ok (data.map ImageData.url) (data.map ImageData.revised_prompt))
    ∧ (data.map ImageData.url).length = data.length
    ∧ (data.map ImageData.revised_prompt).length = data.length
    ∧ ∀ k, k < data.length →
        (data.map ImageData.url).getD k "" = (data.getD k ⟨"", none⟩).url
        ∧ (data.map ImageData.revised_prompt).getD k none
            = (data.getD k ⟨"", none⟩).revised_prompt := by
  refine ⟨?_, by simp, by simp, ?_⟩
  · unfold generateImage
    simp [hkey, hprov]
  · intro k hk
    exact ⟨getD_map_of_lt ImageData.url ⟨"", none⟩ "" data k hk,
      getD_map_of_lt ImageData.revised_prompt ⟨"", none⟩ none data k hk⟩

/-- The stub provider response of the generation scenario: two URLs, one
revised prompt and one null. -/
def genDataC7 : List ImageData :=
  [⟨"https://img/1.png", some "a vivid red fox"⟩, ⟨"https://img/2.png", none⟩]

/-- A generation environment with a credential and the stub provider. -/
def genEnvC7 : GenEnv := { apiKey := some "sk-test", provider := fun _ => .ok genDataC7 }

/-- The generation request of the scenario. -/
def genParamsC7 : ImageGenerationParams :=
  { prompt := "a red fox", size := .s1024x1024, quality := .standard, style := .vivid, n := 2 }

/-- Witness for C7 at the scenario input: two URLs come back, and the second
revised prompt is null. -/
theorem generation_success_aligned_witness :
    credentialMissing genEnvC7.apiKey = false
    ∧ genEnvC7.provider (providerRequestOf genParamsC7) = .ok genDataC7
    ∧ (generateImage genEnvC7 genParamsC7).2 =
        .returned (.ok (genDataC7.map ImageData.url) (genDataC7.map ImageData.revised_prompt))
    ∧ (genDataC7.map ImageData.url).length = 2
    ∧ (genDataC7.map ImageData.revised_prompt).getD 1 none = none :=
  ⟨rfl, rfl, (generation_success_aligned genEnvC7 genParamsC7 genDataC7 rfl rfl).1,
    by decide, by decide⟩

/-! ### Claim C1: successful batch save -/

/-- C1: for a request with `k` URLs and no revisedPrompts, when every download
and write succeeds, the call writes exactly `k` image files and `k` sidecar
files and returns a success envelope whose saved_paths list has exactly `k`
entries, entry `k` being the full path of the image file written for
`urls[k]` (sidecar paths are not included), in input order. -/
theorem save_success_envelope_per_url (env : SaveEnv) (params : SaveImagesParams)
    (_hrev : params.revisedPrompts = none)
    (hfetch : ∀ u ∈ params.urls, (env.fetch u).isResponse = true)
    (hmkdir : env.mkdirFail (targetDirOf env params.outputDir) = none)
    (hwrite : ∀ p, env.writeFail p = none) :
    (saveImages env params FsState.init).2 =
      .returned (.ok
        (pathsFrom env params.prompt (targetDirOf env params.outputDir) 0 params.urls)
        ("Successfully saved " ++ natRepr params.urls.length ++ " images to "
          ++ jsOrElse params.outputDir "images" ++ " directory"))
    ∧ (pathsFrom env params.prompt (targetDirOf env params.outputDir) 0 params.urls).length
        = params.urls.length
    ∧ countImages (saveImages env params FsState.init).1.files = params.urls.length
    ∧ countSidecars (saveImages env params FsState.init).1.files = params.urls.length
    ∧ ∀ k, k < params.urls.length →
        (pathsFrom env params.prompt (targetDirOf env params.outputDir) 0 params.urls).getD k ""
          = pathJoin (targetDirOf env params.outputDir)
              (filenameFrom params.prompt (env.clock k) k)
        ∧ ((pathsFrom env params.prompt (targetDirOf env params.outputDir) 0 params.urls).getD k "",
            FileData.image (env.fetch (params.urls.getD k "")).body)
            ∈ (saveImages env params FsState.init).1.files := by
  have hrun := saveImages_success_run env params hfetch hmkdir hwrite
  refine ⟨by rw [hrun], pathsFrom_length env _ _ 0 params.urls, ?_, ?_, ?_⟩
  · rw [hrun]
    exact countImages_writesFrom env _ _ _ 0 params.urls
  · rw [hrun]
    exact countSidecars_writesFrom env _ _ _ 0 params.urls
  · intro k hk
    have hpath := pathsFrom_getD env params.prompt (targetDirOf env params.outputDir)
      params.urls 0 k hk
    simp only [Nat.zero_add] at hpath
    refine ⟨hpath, ?_⟩
    have hmem := image_write_mem_writesFrom env params.prompt (targetDirOf env params.outputDir)
      (revisedOf params) params.urls 0 k hk
    simp only [Nat.zero_add] at hmem
    rw [hrun, hpath]
    exact hmem

/-- A save environment in which every download and write succeeds. -/
def okEnvC1 : SaveEnv :=
  { cwd := "/w"
    clock := fun k => 1700 + k
    fetch := fun _ => .response 200 [1, 2, 3]
    mkdirFail := fun _ => none
    writeFail := fun _ => none }

/-- A two-URL save request without revised prompts. -/
def okParamsC1 : SaveImagesParams :=
  { urls := ["http://x/1.png", "http://x/2.png"]
    prompt := "a red fox"
    revisedPrompts := none
    outputDir := some "/out" }

/-- Witness for C1 at a concrete two-URL request. -/
theorem save_success_envelope_per_url_witness :
    okParamsC1.revisedPrompts = none
    ∧ (∀ u ∈ okParamsC1.urls, (okEnvC1.fetch u).isResponse = true)
    ∧ okEnvC1.mkdirFail (targetDirOf okEnvC1 okParamsC1.outputDir) = none
    ∧ (∀ p, okEnvC1.writeFail p = none)
    ∧ (saveImages okEnvC1 okParamsC1 FsState.init).2 =
        .returned (.ok
          (pathsFrom okEnvC1 okParamsC1.prompt (targetDirOf okEnvC1 okParamsC1.outputDir)
            0 okParamsC1.urls)
          ("Successfully saved " ++ natRepr okParamsC1.urls.length ++ " images to "
            ++ jsOrElse okParamsC1.outputDir "images" ++ " directory")) :=
  ⟨rfl, by decide, rfl, fun _ => rfl,
    (save_success_envelope_per_url okEnvC1 okParamsC1 rfl (by decide) rfl fun _ => rfl).1⟩

/-! ### Claim C6: per-item timestamps, uniqueness by index -/

/-- C6 (amended): a millisecond timestamp is sampled per item inside the loop
(item `k` uses the `k`-th clock sample of the call), so distinct items of one
batch may carry distinct timestamps; the filenames within one call are
nevertheless pairwise distinct without checking the filesystem, because each
embeds its item's zero-based index. -/
theorem filenames_unique_per_call (env : SaveEnv) (params : SaveImagesParams)
    (hfetch : ∀ u ∈ params.urls, (env.fetch u).isResponse = true)
    (hmkdir : env.mkdirFail (targetDirOf env params.outputDir) = none)
    (hwrite : ∀ p, env.writeFail p = none) :
    (saveImages env params FsState.init).2 =
      .returned (.ok
        (pathsFrom env params.prompt (targetDirOf env params.outputDir) 0 params.urls)
        ("Successfully saved " ++ natRepr params.urls.length ++ " images to "
          ++ jsOrElse params.outputDir "images" ++ " directory"))
    ∧ (pathsFrom env params.prompt (targetDirOf env params.outputDir) 0 params.urls).Nodup
    ∧ ∀ k, k < params.urls.length →
        (pathsFrom env params.prompt (targetDirOf env params.outputDir) 0 params.urls).getD k ""
          = pathJoin (targetDirOf env params.outputDir)
              (filenameFrom params.prompt (env.clock k) k) := by
  have hrun := saveImages_success_run env params hfetch hmkdir hwrite
  refine ⟨by rw [hrun], pathsFrom_nodup env _ _ params.urls 0, ?_⟩
  intro k hk
  have hpath := pathsFrom_getD env params.prompt (targetDirOf env params.outputDir)
    params.urls 0 k hk
  simpa using hpath

/-- A save environment whose clock advances between samples. -/
def cenvC6 : SaveEnv :=
  { cwd := "/w"
    clock := fun k => k
    fetch := fun _ => .response 200 [7]
    mkdirFail := fun _ => none
    writeFail := fun _ => none }

/-- A two-URL save request. -/
def cparamsC6 : SaveImagesParams :=
  { urls := ["http://x/1.png", "http://x/2.png"]
    prompt := "p"
    revisedPrompts := none
    outputDir := some "/out" }

/-- C6 counterexample: within a single save call over two URLs, the two
sidecar records carry the timestamps of the first and second clock sample —
the timestamp is sampled once per item inside the loop, not once at the start
of the call, so the same value need not appear in all derived filenames. -/
theorem timestamp_not_shared_counterexample :
    sidecarTimestamps (saveImages cenvC6 cparamsC6 FsState.init).1.files = [0, 1]
    ∧ (0 : Nat) ≠ 1 := by decide

/-- Witness for C6 at a concrete two-URL request. -/
theorem filenames_unique_per_call_witness :
    (∀ u ∈ cparamsC6.urls, (cenvC6.fetch u).isResponse = true)
    ∧ cenvC6.mkdirFail (targetDirOf cenvC6 cparamsC6.outputDir) = none
    ∧ (∀ p, cenvC6.writeFail p = none)
    ∧ (pathsFrom cenvC6 cparamsC6.prompt (targetDirOf cenvC6 cparamsC6.outputDir)
        0 cparamsC6.urls).Nodup :=
  ⟨by decide, rfl, fun _ => rfl,
    (filenames_unique_per_call cenvC6 cparamsC6 (by decide) rfl fun _ => rfl).2.1⟩

/-! ### Claim C8: sidecar metadata -/

/-- C8: the sidecar for item `k` is written at the image path plus ".json" and
records the original prompt, the source URL, the capture timestamp, the
filename, and a revised prompt that is the supplied entry at `k` when the
revisedPrompts array was supplied and has one, and is absent otherwise — a
missing entry at `k` does not fail the batch. -/
theorem sidecar_metadata_contents (env : SaveEnv) (params : SaveImagesParams)
    (hfetch : ∀ u ∈ params.urls, (env.fetch u).isResponse = true)
    (hmkdir : env.mkdirFail (targetDirOf env params.outputDir) = none)
    (hwrite : ∀ p, env.writeFail p = none) :
    (saveImages env params FsState.init).2.isThrown = false
    ∧ saveOutcomeIsErrorEnvelope (saveImages env params FsState.init).2 = false
    ∧ ∀ k, k < params.urls.length →
        (pathJoin (targetDirOf env params.outputDir)
            (filenameFrom params.prompt (env.clock k) k) ++ ".json",
          FileData.sidecar
            { original_prompt := params.prompt
              revised_prompt :=
                (match params.revisedPrompts with
                 | some rs => if k < rs.length then some (rs.getD k "") else none
                 | none => none)
              url := params.urls.getD k ""
              timestamp := env.clock k
              filename := filenameFrom params.prompt (env.clock k) k })
          ∈ (saveImages env params FsState.init).1.files := by
  have hrun := saveImages_success_run env params hfetch hmkdir hwrite
  refine ⟨by rw [hrun]; rfl, by rw [hrun]; rfl, ?_⟩
  intro k hk
  have hmem := sidecar_write_mem_writesFrom env params.prompt (targetDirOf env params.outputDir)
    (revisedOf params) params.urls 0 k hk
  simp only [Nat.zero_add, metadataAt, revisedOf_getD params k] at hmem
  rw [hrun]
  exact hmem

/-- A save environment in which every download and write succeeds. -/
def okEnvC8 : SaveEnv :=
  { cwd := "/w"
    clock := fun k => 40 + k
    fetch := fun _ => .response 200 [5]
    mkdirFail := fun _ => none
    writeFail := fun _ => none }

/-- Two URLs with a supplied revisedPrompts array that is missing its entry at
index 1. -/
def okParamsC8 : SaveImagesParams :=
  { urls := ["http://x/1.png", "http://x/2.png"]
    prompt := "p"
    revisedPrompts := some ["a revised p"]
    outputDir := some "/out" }

/-- Witness for C8: the short revisedPrompts array does not fail the batch. -/
theorem sidecar_metadata_contents_witness :
    (∀ u ∈ okParamsC8.urls, (okEnvC8.fetch u).isResponse = true)
    ∧ okEnvC8.mkdirFail (targetDirOf okEnvC8 okParamsC8.outputDir) = none
    ∧ (∀ p, okEnvC8.writeFail p = none)
    ∧ (saveImages okEnvC8 okParamsC8 FsState.init).2.isThrown = false :=
  ⟨by decide, rfl, fun _ => rfl,
    (sidecar_metadata_contents okEnvC8 okParamsC8 (by decide) rfl fun _ => rfl).1⟩

/-- Any value thrown out of `saveGeneratedImages` is the (always-`Error`)
directory-creation wrapper, a fetch rejection value, or a write-failure
value. -/
theorem saveGeneratedImages_thrown_source (env : SaveEnv) (urls : List String)
    (revised : List (Option String)) (prompt : String) (outputDir : Option String)
    (st : FsState) (e : JSValue)
    (h : (saveGeneratedImages env urls revised prompt outputDir st).2 = .thrown e) :
    (∃ m, e = .error m) ∨ (∃ u ∈ urls, env.fetch u = .reject e)
      ∨ (∃ p, env.writeFail p = some e) := by
  unfold saveGeneratedImages at h
  cases hmk : env.mkdirFail (jsOrElse outputDir (pathJoin env.cwd "images")) with
  | some e2 =>
    simp only [hmk] at h
    refine Or.inl ⟨"Failed to create directory: " ++ jsErrString e2, ?_⟩
    simpa using h.symm
  | none =>
    simp only [hmk] at h
    exact Or.inr (saveLoop_thrown_source env prompt
      (jsOrElse outputDir (pathJoin env.cwd "images")) revised urls 0 _ [] e h)

/-! ### Claim C2: failures are caught at the operation boundary -/

/-- C2 (amended): every failure raised inside either operation that is an
`Error` instance — as the failures raised by the fetch, filesystem and
provider libraries are — is caught at the operation boundary and wrapped into
an error-marked envelope carrying a human-readable message, so no such fault
escapes to the transport; only the missing-credential throw and a thrown
non-`Error` value propagate. Concretely: any Error thrown by the save body
(download rejection, write failure) yields the
"Failed to save images: ..." error envelope, a directory-creation failure
(whatever its value) yields its wrapped message inside that envelope, a
provider rejection with an Error yields the "Image generation failed: ..."
error envelope, and under Error-only failures neither operation ever
re-throws. -/
theorem error_failures_wrapped_at_boundary :
    (∀ (env : SaveEnv) (params : SaveImagesParams) (m : String),
      (saveGeneratedImages env params.urls (revisedOf params) params.prompt
          params.outputDir FsState.init).2 = .thrown (.error m) →
      (saveImages env params FsState.init).2 =
          .returned (.error ("Failed to save images: " ++ m))
        ∧ saveOutcomeIsErrorEnvelope (saveImages env params FsState.init).2 = true)
    ∧ (∀ (env : SaveEnv) (params : SaveImagesParams) (e : JSValue),
      env.mkdirFail (targetDirOf env params.outputDir) = some e →
      (saveImages env params FsState.init).2 =
        .returned (.error ("Failed to save images: "
          ++ ("Failed to create directory: " ++ jsErrString e))))
    ∧ (∀ (env : SaveEnv) (params : SaveImagesParams),
      (∀ u e, env.fetch u = .reject e → e.isJsError = true) →
      (∀ p e, env.writeFail p = some e → e.isJsError = true) →
      (saveImages env params FsState.init).2.isThrown = false)
    ∧ (∀ (env : GenEnv) (params : ImageGenerationParams) (m : String),
      credentialMissing env.apiKey = false →
      env.provider (providerRequestOf params) = .error (.error m) →
      (generateImage env params).2 =
          .returned (.error ("Image generation failed: " ++ m))
        ∧ (generateImage env params).2.isThrown = false)
    ∧ (∀ (env : GenEnv) (params : ImageGenerationParams),
      credentialMissing env.apiKey = false →
      (∀ e, env.provider (providerRequestOf params) = .error e → e.isJsError = true) →
      (generateImage env params).2.isThrown = false) := by
  refine ⟨?_, ?_, ?_, ?_, ?_⟩
  · intro env params m h
    rcases hout : saveGeneratedImages env params.urls (revisedOf params) params.prompt
      params.outputDir FsState.init with ⟨st1, out⟩
    have hth : out = .thrown (.error m) := by rw [hout] at h; exact h
    subst hth
    unfold saveImages
    rw [hout]
    exact ⟨rfl, rfl⟩
  · intro env params e hmk
    simp only [targetDirOf] at hmk
    unfold saveImages saveGeneratedImages
    simp [hmk]
  · intro env params hfe hwe
    rcases hout : saveGeneratedImages env params.urls (revisedOf params) params.prompt
      params.outputDir FsState.init with ⟨st1, out⟩
    cases out with
    | returned v =>
      unfold saveImages
      rw [hout]
      rfl
    | thrown e =>
      have h2 : (saveGeneratedImages env params.urls (revisedOf params) params.prompt
          params.outputDir FsState.init).2 = .thrown e := by rw [hout]
      have he : e.isJsError = true := by
        rcases saveGeneratedImages_thrown_source env params.urls (revisedOf params)
            params.prompt params.outputDir FsState.init e h2
          with ⟨m2, hm⟩ | ⟨u, hu, hrej⟩ | ⟨p, hp⟩
        · rw [hm]; rfl
        · exact hfe u e hrej
        · exact hwe p e hp
      cases e with
      | error msg =>
        unfold saveImages
        rw [hout]
        rfl
      | other d => simp [JSValue.isJsError] at he
  · intro env params m hkey hprov
    unfold generateImage
    simp [hkey, hprov, JsOutcome.isThrown]
  · intro env params hkey hprov
    unfold generateImage
    simp only [hkey, Bool.false_eq_true, if_false]
    cases hp : env.provider (providerRequestOf params) with
    | ok data => simp [hp, JsOutcome.isThrown]
    | error e =>
      cases e with
      | error m => simp [hp, JsOutcome.isThrown]
      | other d =>
        have hcontra := hprov (.other d) hp
        simp [JSValue.isJsError] at hcontra

/-- A save environment whose single download rejects with an Error. -/
def cenvC2a : SaveEnv :=
  { cwd := "/w"
    clock := fun _ => 3
    fetch := fun _ => .reject (.error "ECONNRESET")
    mkdirFail := fun _ => none
    writeFail := fun _ => none }

/-- A save environment whose directory creation fails with an Error. -/
def cenvC2b : SaveEnv :=
  { cwd := "/w"
    clock := fun _ => 3
    fetch := fun _ => .response 200 [1]
    mkdirFail := fun _ => some (.error "EACCES")
    writeFail := fun _ => none }

/-- A save environment whose file writes fail with an Error. -/
def cenvC2c : SaveEnv :=
  { cwd := "/w"
    clock := fun _ => 3
    fetch := fun _ => .response 200 [1]
    mkdirFail := fun _ => none
    writeFail := fun _ => some (.error "ENOSPC") }

/-- A generation environment whose provider call rejects with an Error. -/
def genEnvC2 : GenEnv :=
  { apiKey := some "sk-test", provider := fun _ => .error (.error "rate limit exceeded") }

/-- A well-formed generation request for the C2 witness. -/
def genParamsC2 : ImageGenerationParams :=
  { prompt := "a red fox", size := .s1024x1024, quality := .standard, style := .vivid, n := 1 }

/-- A one-URL save request. -/
def wparamsC2 : SaveImagesParams :=
  { urls := ["http://x/a.png"], prompt := "p", revisedPrompts := none, outputDir := some "/out" }

/-- Witness for C2 at concrete failing environments: a download rejection, a
write failure and a directory-creation failure each produce the
"Failed to save images: ..." error envelope, a provider rejection produces
the "Image generation failed: ..." error envelope, and none of these faults
escapes the operation boundary. -/
theorem error_failures_wrapped_at_boundary_witness :
    (saveGeneratedImages cenvC2a wparamsC2.urls (revisedOf wparamsC2) wparamsC2.prompt
        wparamsC2.outputDir FsState.init).2 = .thrown (.error "ECONNRESET")
    ∧ ((saveImages cenvC2a wparamsC2 FsState.init).2 =
          .returned (.error ("Failed to save images: " ++ "ECONNRESET"))
        ∧ saveOutcomeIsErrorEnvelope (saveImages cenvC2a wparamsC2 FsState.init).2 = true)
    ∧ (∀ u e, cenvC2a.fetch u = .reject e → e.isJsError = true)
    ∧ (saveImages cenvC2a wparamsC2 FsState.init).2.isThrown = false
    ∧ (saveGeneratedImages cenvC2c wparamsC2.urls (revisedOf wparamsC2) wparamsC2.prompt
        wparamsC2.outputDir FsState.init).2 = .thrown (.error "ENOSPC")
    ∧ (saveImages cenvC2c wparamsC2 FsState.init).2 =
        .returned (.error ("Failed to save images: " ++ "ENOSPC"))
    ∧ cenvC2b.mkdirFail (targetDirOf cenvC2b wparamsC2.outputDir) = some (.error "EACCES")
    ∧ (saveImages cenvC2b wparamsC2 FsState.init).2 =
        .returned (.error ("Failed to save images: "
          ++ ("Failed to create directory: " ++ jsErrString (.error "EACCES"))))
    ∧ credentialMissing genEnvC2.apiKey = false
    ∧ genEnvC2.provider (providerRequestOf genParamsC2) = .error (.error "rate limit exceeded")
    ∧ (generateImage genEnvC2 genParamsC2).2 =
        .returned (.error ("Image generation failed: " ++ "rate limit exceeded"))
    ∧ (generateImage genEnvC2 genParamsC2).2.isThrown = false :=
  ⟨by decide,
    error_failures_wrapped_at_boundary.1 cenvC2a wparamsC2 "ECONNRESET" (by decide),
    fun u e h => by injection h with h1; rw [← h1]; rfl,
    error_failures_wrapped_at_boundary.2.2.1 cenvC2a wparamsC2
      (fun u e h => by injection h with h1; rw [← h1]; rfl)
      (fun _ _ h => Option.noConfusion h),
    by decide,
    (error_failures_wrapped_at_boundary.1 cenvC2c wparamsC2 "ENOSPC" (by decide)).1,
    rfl,
    error_failures_wrapped_at_boundary.2.1 cenvC2b wparamsC2 (.error "EACCES") rfl,
    rfl,
    rfl,
    (error_failures_wrapped_at_boundary.2.2.2.1 genEnvC2 genParamsC2
      "rate limit exceeded" rfl rfl).1,
    error_failures_wrapped_at_boundary.2.2.2.2 genEnvC2 genParamsC2 rfl
      (fun e h => by injection h with h1; rw [← h1]; rfl)⟩

/-- A save environment whose download rejects with a thrown non-Error value. -/
def cenvC2 : SaveEnv :=
  { cwd := "/w"
    clock := fun _ => 3
    fetch := fun _ => .reject (.other "boom")
    mkdirFail := fun _ => none
    writeFail := fun _ => none }

/-- A one-URL save request. -/
def cparamsC2 : SaveImagesParams :=
  { urls := ["http://x/a.png"], prompt := "p", revisedPrompts := none, outputDir := some "/out" }

/-- C2 counterexample: a download rejection carrying a thrown non-Error value
is re-thrown by the catch block (`throw error`) instead of being wrapped, so
the fault does escape the operation boundary. -/
theorem non_error_value_escapes_counterexample :
    (saveImages cenvC2 cparamsC2 FsState.init).2 = .thrown (.other "boom")
    ∧ (saveImages cenvC2 cparamsC2 FsState.init).2.isThrown = true := by decide

/-! ### Claim C3: a download failure aborts the batch -/

/-- C3 (amended): when the download at position `i` rejects (a network-level
failure carried by an Error), the whole call returns the error envelope with
no saved_paths list, nothing at positions after `i` is written, and the image
and sidecar files of positions before `i` remain recorded (no rollback);
an HTTP error status, which does not reject, is not detected (see the
counterexample). -/
theorem download_rejection_aborts_batch (env : SaveEnv) (params : SaveImagesParams)
    (pre post : List String) (u m : String)
    (hsplit : params.urls = pre ++ u :: post)
    (hpre : ∀ v ∈ pre, (env.fetch v).isResponse = true)
    (hrej : env.fetch u = .reject (.error m))
    (hmkdir : env.mkdirFail (targetDirOf env params.outputDir) = none)
    (hwrite : ∀ p, env.writeFail p = none) :
    (saveImages env params FsState.init).2 =
      .returned (.error ("Failed to save images: " ++ m))
    ∧ saveOutcomeIsErrorEnvelope (saveImages env params FsState.init).2 = true
    ∧ (saveImages env params FsState.init).1.files =
        writesFrom env params.prompt (targetDirOf env params.outputDir) (revisedOf params) 0 pre
    ∧ countImages (saveImages env params FsState.init).1.files = pre.length
    ∧ countSidecars (saveImages env params FsState.init).1.files = pre.length := by
  have hrun := saveImages_reject_run env params pre post u m hsplit hpre hrej hmkdir hwrite
  rw [hrun]
  exact ⟨rfl, rfl, rfl, countImages_writesFrom env _ _ _ 0 pre,
    countSidecars_writesFrom env _ _ _ 0 pre⟩

/-- A save environment in which exactly one URL rejects. -/
def cenvC3w : SaveEnv :=
  { cwd := "/w"
    clock := fun k => k
    fetch := fun url =>
      if url = "http://x/b.png" then .reject (.error "ECONNREFUSED") else .response 200 [1]
    mkdirFail := fun _ => none
    writeFail := fun _ => none }

/-- A three-URL save request whose middle download fails. -/
def cparamsC3w : SaveImagesParams :=
  { urls := ["http://x/a.png", "http://x/b.png", "http://x/c.png"]
    prompt := "p"
    revisedPrompts := none
    outputDir := some "/out" }

/-- Witness for C3 (amended) at a concrete three-URL request failing at
position 1. -/
theorem download_rejection_aborts_batch_witness :
    cparamsC3w.urls = ["http://x/a.png"] ++ "http://x/b.png" :: ["http://x/c.png"]
    ∧ (∀ v ∈ ["http://x/a.png"], (cenvC3w.fetch v).isResponse = true)
    ∧ cenvC3w.fetch "http://x/b.png" = .reject (.error "ECONNREFUSED")
    ∧ cenvC3w.mkdirFail (targetDirOf cenvC3w cparamsC3w.outputDir) = none
    ∧ (∀ p, cenvC3w.writeFail p = none)
    ∧ (saveImages cenvC3w cparamsC3w FsState.init).2 =
        .returned (.error ("Failed to save images: " ++ "ECONNREFUSED")) :=
  ⟨rfl, by decide, by decide, rfl, fun _ => rfl,
    (download_rejection_aborts_batch cenvC3w cparamsC3w ["http://x/a.png"] ["http://x/c.png"]
      "http://x/b.png" "ECONNREFUSED" rfl (by decide) (by decide) rfl fun _ => rfl).1⟩

/-- A save environment in which every download resolves with HTTP status 404. -/
def cenvC3 : SaveEnv :=
  { cwd := "/w"
    clock := fun _ => 7
    fetch := fun _ => .response 404 [9]
    mkdirFail := fun _ => none
    writeFail := fun _ => none }

/-- A one-URL save request. -/
def cparamsC3 : SaveImagesParams :=
  { urls := ["http://x/a.png"], prompt := "p", revisedPrompts := none, outputDir := some "/out" }

/-- C3 counterexample: a download that fails at the HTTP level (status 404)
does not reject, the status is never inspected, and the call returns a
success envelope, writing the error body as the image — an HTTP failure is
not fatal, contrary to the claim. -/
theorem http_status_failure_not_fatal_counterexample :
    (saveImages cenvC3 cparamsC3 FsState.init).2 =
      .returned (.ok ["/out/p-7-0.png"] "Successfully saved 1 images to /out directory")
    ∧ saveOutcomeIsErrorEnvelope (saveImages cenvC3 cparamsC3 FsState.init).2 = false
    ∧ (saveImages cenvC3 cparamsC3 FsState.init).2.isThrown = false
    ∧ (saveImages cenvC3 cparamsC3 FsState.init).1.files =
        [("/out/p-7-0.png", FileData.image [9]),
         ("/out/p-7-0.png.json",
           FileData.sidecar ⟨"p", none, "http://x/a.png", 7, "p-7-0.png"⟩)] := by decide

/-! ### Claim C9: the two-image scenario -/

/-- The save request of the scenario. -/
def cparamsC9 : SaveImagesParams :=
  { urls := ["http://x/1.png", "http://x/2.png"]
    prompt := "A Red Fox!!"
    revisedPrompts := none
    outputDir := some "/tmp/out" }

/-- A scenario environment with a constant clock. -/
def cenvC9 : SaveEnv :=
  { cwd := "/w"
    clock := fun _ => 5
    fetch := fun _ => .response 200 [3]
    mkdirFail := fun _ => none
    writeFail := fun _ => none }

/-- C9 counterexample: sanitising "A Red Fox!!" yields "a-red-fox--" (two
trailing hyphens), and the template adds a third hyphen before the timestamp:
the files are named a-red-fox---\x3cts\x3e-0.png, not a-red-fox--\x3cts\x3e-0.png as
the claim states. -/
theorem scenario_filenames_counterexample :
    (saveImages cenvC9 cparamsC9 FsState.init).2 =
      .returned (.ok ["/tmp/out/a-red-fox---5-0.png", "/tmp/out/a-red-fox---5-1.png"]
        "Successfully saved 2 images to /tmp/out directory")
    ∧ ("/tmp/out/a-red-fox---5-0.png" : String) ≠ "/tmp/out/a-red-fox--5-0.png"
    ∧ countImages (saveImages cenvC9 cparamsC9 FsState.init).1.files = 2
    ∧ countSidecars (saveImages cenvC9 cparamsC9 FsState.init).1.files = 2 := by decide

/-- C9 (amended): for the scenario input, two image files are written under
/tmp/out, named with the sanitized prompt "a-red-fox--" followed by the
separator hyphen, the item's timestamp, its index and ".png" (three
consecutive hyphens before the timestamp), plus two .json sidecars, and
saved_paths has exactly 2 entries. -/
theorem scenario_two_fox_images (env : SaveEnv)
    (hfetch : ∀ u ∈ cparamsC9.urls, (env.fetch u).isResponse = true)
    (hmkdir : env.mkdirFail "/tmp/out" = none)
    (hwrite : ∀ p, env.writeFail p = none) :
    (saveImages env cparamsC9 FsState.init).2 =
      .returned (.ok
        [pathJoin "/tmp/out"
          ("a-red-fox--" ++ "-" ++ natRepr (env.clock 0) ++ "-" ++ "0" ++ ".png"),
         pathJoin "/tmp/out"
          ("a-red-fox--" ++ "-" ++ natRepr (env.clock 1) ++ "-" ++ "1" ++ ".png")]
        "Successfully saved 2 images to /tmp/out directory")
    ∧ (pathsFrom env cparamsC9.prompt (targetDirOf env cparamsC9.outputDir)
        0 cparamsC9.urls).length = 2
    ∧ countImages (saveImages env cparamsC9 FsState.init).1.files = 2
    ∧ countSidecars (saveImages env cparamsC9 FsState.init).1.files = 2 := by
  have htd : targetDirOf env cparamsC9.outputDir = "/tmp/out" := rfl
  have hrun := saveImages_success_run env cparamsC9 hfetch (by rw [htd]; exact hmkdir) hwrite
  have hsp : safePromptOf "A Red Fox!!" = "a-red-fox--" := by decide
  have h0 : natRepr 0 = "0" := rfl
  have h1 : natRepr 1 = "1" := rfl
  have hmsg : ("Successfully saved " ++ natRepr cparamsC9.urls.length ++ " images to "
      ++ jsOrElse cparamsC9.outputDir "images" ++ " directory")
      = "Successfully saved 2 images to /tmp/out directory" := by decide
  refine ⟨?_, ?_, ?_, ?_⟩
  · rw [hrun]
    show JsOutcome.returned (SaveResult.ok
        (pathsFrom env cparamsC9.prompt (targetDirOf env cparamsC9.outputDir) 0 cparamsC9.urls)
        ("Successfully saved " ++ natRepr cparamsC9.urls.length ++ " images to "
          ++ jsOrElse cparamsC9.outputDir "images" ++ " directory")) = _
    rw [hmsg, htd]
    show JsOutcome.returned (SaveResult.ok
        [pathJoin "/tmp/out" (filenameFrom cparamsC9.prompt (env.clock 0) 0),
         pathJoin "/tmp/out" (filenameFrom cparamsC9.prompt (env.clock 1) 1)] _) = _
    rw [show filenameFrom cparamsC9.prompt (env.clock 0) 0
        = "a-red-fox--" ++ "-" ++ natRepr (env.clock 0) ++ "-" ++ "0" ++ ".png" by
      unfold filenameFrom
      rw [show safePromptOf cparamsC9.prompt = "a-red-fox--" from hsp, h0]]
    rw [show filenameFrom cparamsC9.prompt (env.clock 1) 1
        = "a-red-fox--" ++ "-" ++ natRepr (env.clock 1) ++ "-" ++ "1" ++ ".png" by
      unfold filenameFrom
      rw [show safePromptOf cparamsC9.prompt = "a-red-fox--" from hsp, h1]]
  · exact pathsFrom_length env _ _ 0 cparamsC9.urls
  · rw [hrun]
    exact countImages_writesFrom env _ _ _ 0 cparamsC9.urls
  · rw [hrun]
    exact countSidecars_writesFrom env _ _ _ 0 cparamsC9.urls

/-- Witness for C9 (amended) at the constant-clock environment. -/
theorem scenario_two_fox_images_witness :
    (∀ u ∈ cparamsC9.urls, (cenvC9.fetch u).isResponse = true)
    ∧ cenvC9.mkdirFail "/tmp/out" = none
    ∧ (∀ p, cenvC9.writeFail p = none)
    ∧ (saveImages cenvC9 cparamsC9 FsState.init).2 =
        .returned (.ok
          [pathJoin "/tmp/out"
            ("a-red-fox--" ++ "-" ++ natRepr (cenvC9.clock 0) ++ "-" ++ "0" ++ ".png"),
           pathJoin "/tmp/out"
            ("a-red-fox--" ++ "-" ++ natRepr (cenvC9.clock 1) ++ "-" ++ "1" ++ ".png")]
          "Successfully saved 2 images to /tmp/out directory") :=
  ⟨by decide, rfl, fun _ => rfl,
    (scenario_two_fox_images cenvC9 (by decide) rfl fun _ => rfl).1⟩

/-! ### Claim C10: the empty batch -/

/-- C10 (amended): for an empty urls list the call still resolves and creates
the target directory — a supplied non-empty outputDir, else the default
"images" directory under the working directory (a supplied empty string is
falsy in JavaScript and also selects the default) — attempts no download,
writes no file, and returns a success envelope with an empty saved_paths list
and a message reporting that 0 images were saved. -/
theorem empty_urls_save_succeeds (env : SaveEnv) (params : SaveImagesParams)
    (hurls : params.urls = [])
    (hmkdir : env.mkdirFail (targetDirOf env params.outputDir) = none) :
    saveImages env params FsState.init =
      ({ dirs := [targetDirOf env params.outputDir], files := [], fetches := [], clockCalls := 0 },
       .returned (.ok []
         ("Successfully saved " ++ natRepr 0 ++ " images to "
           ++ jsOrElse params.outputDir "images" ++ " directory"))) := by
  simp only [targetDirOf] at hmkdir ⊢
  unfold saveImages saveGeneratedImages
  simp [hmkdir, hurls, saveLoop, FsState.init]

/-- An all-success environment for the empty batch. -/
def cenvC10 : SaveEnv :=
  { cwd := "/w"
    clock := fun _ => 0
    fetch := fun _ => .response 200 []
    mkdirFail := fun _ => none
    writeFail := fun _ => none }

/-- An empty save request whose outputDir is the empty string. -/
def cparamsC10 : SaveImagesParams :=
  { urls := [], prompt := "p", revisedPrompts := none, outputDir := some "" }

/-- C10 counterexample: with urls empty and outputDir provided as the empty
string, the directory created is the default "images" directory under the
working directory, not the provided outputDir — `outputDir || default`
treats the empty string as absent. -/
theorem empty_outputDir_falls_back_counterexample :
    (saveImages cenvC10 cparamsC10 FsState.init).1.dirs = ["/w/images"]
    ∧ ("/w/images" : String) ≠ ""
    ∧ (saveImages cenvC10 cparamsC10 FsState.init).2 =
        .returned (.ok [] "Successfully saved 0 images to images directory")
    ∧ (saveImages cenvC10 cparamsC10 FsState.init).1.fetches = []
    ∧ (saveImages cenvC10 cparamsC10 FsState.init).1.files = [] := by decide

/-- A non-empty outputDir for the empty batch. -/
def wparamsC10 : SaveImagesParams :=
  { urls := [], prompt := "p", revisedPrompts := none, outputDir := some "/out" }

/-- Witness for C10 (amended) at a concrete empty request. -/
theorem empty_urls_save_succeeds_witness :
    wparamsC10.urls = []
    ∧ cenvC10.mkdirFail (targetDirOf cenvC10 wparamsC10.outputDir) = none
    ∧ saveImages cenvC10 wparamsC10 FsState.init =
        ({ dirs := [targetDirOf cenvC10 wparamsC10.outputDir], files := [], fetches := [],
           clockCalls := 0 },
         .returned (.ok []
           ("Successfully saved " ++ natRepr 0 ++ " images to "
             ++ jsOrElse wparamsC10.outputDir "images" ++ " directory"))) :=
  ⟨rfl, rfl, empty_urls_save_succeeds cenvC10 wparamsC10 rfl rfl⟩

end ImageServer
